import Mathlib

/-!
Shallow embedding of the core of the Advanced-Bot repository
(src/bot.py, src/main.py, src/Config.py) and proofs about it.

Python strings are Lean `String`s; Python `in` on strings is the
substring test `strContains`; `str.lower()` is `strLower` (ASCII case
folding, as all routing keywords are ASCII).  The HTTP exchange inside
`AIOrchestrator.process_query` is abstracted by a `NetOutcome` oracle
that records everything the code observes of the network: a 200 status
with a parsed payload (its optional `response` field), a 200 status
whose body fails to parse, a non-200 status, or a raised
transport/timeout exception.  Fallible Python code is `Except PyExn`;
stateful code is explicit state passing on the per-user context list.
Floats 0.7/0.8/0.5 are embedded as rationals.
-/

/-- ASCII lowercase of one character, as Python lowercases the ASCII
routing keywords. -/
def charLower (c : Char) : Char := c.toLower

/-- Embedding of Python `str.lower()` (character-wise case folding). -/
def strLower (s : String) : String := ⟨s.data.map charLower⟩

/-- Boolean list-prefix test on characters. -/
def listPrefixOf : List Char → List Char → Bool
  | [], _ => true
  | _ :: _, [] => false
  | a :: as, b :: bs => a == b && listPrefixOf as bs

/-- Boolean contiguous-sublist test on characters. -/
def listInfixOf (sub l : List Char) : Bool :=
  match l with
  | [] => sub.isEmpty
  | _ :: t => listPrefixOf sub l || listInfixOf sub t

/-- Embedding of the Python substring operator `sub in s`. -/
def strContains (s sub : String) : Bool := listInfixOf sub.data s.data

/-- One conversation turn, as appended to `context.user_data["ai_context"]`
in src/main.py (role, content, ISO timestamp string). -/
structure Turn where
  role : String
  content : String
  timestamp : String
  deriving DecidableEq, Repr

/-- One entry of the `ai_services` table built by
`AIOrchestrator._initialize_services` in src/bot.py. -/
structure ServiceConfig where
  endpoint : String
  capabilities : List String
  model : String
  deriving DecidableEq, Repr

/-- The `ai_services` dict of `AIOrchestrator._initialize_services`
(src/bot.py lines 15-42), as an association list in insertion order. -/
def ai_services : List (String × ServiceConfig) :=
  [("conversational",
    { endpoint := "https://api.advanced-ai.com/v3/chat"
      capabilities := ["dialogue", "reasoning", "explanation"]
      model := "neural-conversant-2025" }),
   ("analytical",
    { endpoint := "https://api.analytica.ai/v2/analyze"
      capabilities := ["analysis", "insights", "predictions"]
      model := "deep-analyst-ultra" }),
   ("creative",
    { endpoint := "https://api.creativa.ai/v4/generate"
      capabilities := ["writing", "art", "music", "design"]
      model := "creative-synthesis-pro" }),
   ("multimodal",
    { endpoint := "https://api.multimodal.ai/v1/process"
      capabilities := ["vision", "audio", "text", "fusion"]
      model := "omni-perceptor" }),
   ("autonomous",
    { endpoint := "https://api.autonomous.ai/v2/agent"
      capabilities := ["planning", "execution", "learning"]
      model := "self-evolving-agent" })]

/-- Embedding of `AIOrchestrator._select_service` (src/bot.py lines
137-150): ordered first-match keyword routing on the lowercased query,
then the mode check, then the default. -/
def _select_service (query mode : String) : String :=
  let query_lower := strLower query
  if ["image", "picture", "photo", "see", "look"].any
      (fun word => strContains query_lower word) then
    "multimodal"
  else if ["create", "generate", "write", "make", "design"].any
      (fun word => strContains query_lower word) then
    "creative"
  else if ["analyze", "predict", "forecast", "trend"].any
      (fun word => strContains query_lower word) then
    "analytical"
  else if mode == "autonomous" then
    "autonomous"
  else
    "conversational"

/-- The `parameters` sub-dict of the request payload built in
`process_query` (src/bot.py lines 61-65). -/
structure DispatchParameters where
  temperature : ℚ
  max_tokens : ℕ
  creativity : ℚ
  deriving DecidableEq, Repr

/-- The request payload built in `process_query` (src/bot.py lines
54-66). -/
structure DispatchPayload where
  query : String
  user_id : String
  context : List Turn
  mode : String
  timestamp : String
  model : String
  parameters : DispatchParameters
  deriving DecidableEq, Repr

/-- Embedding of the payload construction in `process_query`
(src/bot.py lines 54-66): `context[-5:] if context else []` keeps the
last five turns, and the creativity weight is 0.8 exactly when
`"creative" in service_type`. -/
def build_payload (user_id : Int) (query : String) (context : List Turn)
    (mode : String) (timestamp : String) (service_model : String)
    (service_type : String) : DispatchPayload :=
  { query := query
    user_id := toString user_id
    context := if context.isEmpty then [] else context.drop (context.length - 5)
    mode := mode
    timestamp := timestamp
    model := service_model
    parameters :=
      { temperature := 0.7
        max_tokens := 1000
        creativity := if strContains service_type "creative" then 0.8 else 0.5 } }

/-- Everything `process_query` observes of one HTTP exchange:
a 200 status with the parsed payload's optional `response` field, a 200
status whose JSON body fails to parse (raises), a non-200 status, or an
exception raised by the request itself (unreachable endpoint, timeout). -/
inductive NetOutcome where
  | success (field : Option String)
  | parseError
  | badStatus (status : ℕ)
  | transportError
  deriving DecidableEq, Repr

/-- Kinds of Python exception the embedded code can raise. -/
inductive PyExn where
  | keyError
  | netExn
  deriving DecidableEq, Repr

/-- Embedding of `AIOrchestrator._fallback_process` (src/bot.py lines
152-155): a constant string, independent of query and user id. -/
def _fallback_process (_query : String) (_user_id : Int) : String :=
  "I\x27ve processed your request using backup neural networks. Here\x27s what I determined..."

/-- The rule table of `AIOrchestrator._local_ai_response` (src/bot.py
lines 159-164), in the dict's insertion order. -/
def local_responses : List (String × String) :=
  [("hello", "Greetings! I\x27m your advanced AI assistant, operating in local mode."),
   ("help", "I can help with analysis, creation, prediction, and more. Try being specific!"),
   ("error", "I\x27m experiencing connectivity issues but can still assist with basic queries.")]

/-- Embedding of `AIOrchestrator._local_ai_response` (src/bot.py lines
157-171): first key that is a substring of the lowercased query wins,
else the generic local message. -/
def _local_ai_response (query : String) : String :=
  let query_lower := strLower query
  match local_responses.find? (fun kv => strContains query_lower kv.1) with
  | some kv => kv.2
  | none => "I\x27ve processed your query locally. For advanced features, please ensure API connectivity."

/-- Embedding of the `try:` block of `process_query` (src/bot.py lines
68-87): on status 200 read the `response` field with the placeholder
default; on any other status await `_fallback_process`; a transport or
JSON-parse failure raises. -/
def try_block (_payload : DispatchPayload) (user_id : Int) (query : String)
    (net : NetOutcome) : Except PyExn String :=
  match net with
  | NetOutcome.success field => Except.ok (field.getD "AI processing completed.")
  | NetOutcome.parseError => Except.error PyExn.netExn
  | NetOutcome.badStatus _ => Except.ok (_fallback_process query user_id)
  | NetOutcome.transportError => Except.error PyExn.netExn

/-- Embedding of `AIOrchestrator.process_query` (src/bot.py lines
45-91), state-passing in the per-user context list (which the body only
reads, never writes): select a service, look its config up in
`ai_services` (a missing key would raise KeyError, outside the `try:`),
build the payload, run the `try:` block, and convert any caught
exception into `_local_ai_response`. -/
def process_query (user_id : Int) (query : String) (context : List Turn)
    (mode : String) (timestamp : String) (net : NetOutcome) :
    Except PyExn (String × List Turn) :=
  let service_type := _select_service query mode
  match ai_services.lookup service_type with
  | none => Except.error PyExn.keyError
  | some service_config =>
    let payload := build_payload user_id query context mode timestamp
      service_config.model service_type
    match try_block payload user_id query net with
    | Except.ok result => Except.ok (result, context)
    | Except.error _ => Except.ok (_local_ai_response query, context)

/-- The three response-producing stages of the dispatch fallback chain. -/
inductive DispatchSource where
  | primary
  | secondary
  | localResponder
  deriving DecidableEq, Repr

/-- The stages `process_query` attempts, in order, as a function of the
network outcome; read off the try/except control flow of src/bot.py
lines 68-91: a 200 status stays in the primary stage, a non-200 status
awaits `_fallback_process` (the secondary stage), and a raised
exception jumps straight to the `except:` handler's
`_local_ai_response`. -/
def dispatch_trace (net : NetOutcome) : List DispatchSource :=
  match net with
  | NetOutcome.success _ => [DispatchSource.primary]
  | NetOutcome.parseError => [DispatchSource.primary, DispatchSource.localResponder]
  | NetOutcome.badStatus _ => [DispatchSource.primary, DispatchSource.secondary]
  | NetOutcome.transportError => [DispatchSource.primary, DispatchSource.localResponder]

/-- The stage whose text `process_query` returns, as a function of the
network outcome (last element of `dispatch_trace`). -/
def dispatch_source (net : NetOutcome) : DispatchSource :=
  match net with
  | NetOutcome.success _ => DispatchSource.primary
  | NetOutcome.parseError => DispatchSource.localResponder
  | NetOutcome.badStatus _ => DispatchSource.secondary
  | NetOutcome.transportError => DispatchSource.localResponder

/-- The fixed list of interim progress stage labels of
`AIOrchestrator.autonomous_process` (src/bot.py lines 109-115). -/
def thinking_stages : List String :=
  ["Analyzing input parameters...",
   "Consulting knowledge base...",
   "Generating potential actions...",
   "Evaluating outcomes...",
   "Selecting optimal response..."]

/-- The 3-way mode switch that picks the final sentence of
`autonomous_process` (src/bot.py lines 128-133). -/
def autonomous_conclusion (mode : String) : String :=
  if mode == "creative" then
    "Based on creative analysis, I recommend exploring innovative solutions that combine art and technology."
  else if mode == "analytical" then
    "Statistical analysis suggests multiple optimal paths forward with 87% confidence."
  else
    "Autonomous processing complete. Recommended action: Proceed with adaptive learning protocol."

/-- Embedding of `AIOrchestrator.autonomous_process` (src/bot.py lines
93-135).  The `autonomous_payload` dict the source builds is dead code
(never sent anywhere), and the `asyncio.sleep(0.3)` between stage lines
only spends time; the returned string is the header, one bullet line
per thinking stage accumulated by the loop, the separator, and the
mode-selected conclusion. -/
def autonomous_process (_user_id : Int) (_input_data : String) (mode : String)
    (_context : List (String × String)) : String :=
  let response0 := "🤖 **Autonomous Agent Processing**\n\n"
  let response1 := thinking_stages.foldl
    (fun acc stage => acc ++ "• " ++ stage ++ "\n") response0
  let response2 := response1 ++ "\n**Analysis Complete**\n\n"
  response2 ++ autonomous_conclusion mode

/-- The `' '.join(context.args) if context.args else "Hello"` line of
`AdvancedAITelegramBot._ai_command` (src/main.py line 151). -/
def ai_command_input (args : List String) : String :=
  if args.isEmpty then "Hello" else " ".intercalate args

/-- The trim step of `_ai_command` (src/main.py lines 176-177): keep
only the last 20 turns when the list has grown beyond 20. -/
def trim_context (ctx : List Turn) : List Turn :=
  if ctx.length > 20 then ctx.drop (ctx.length - 20) else ctx

/-- Embedding of `AdvancedAITelegramBot._ai_command` (src/main.py lines
150-204), state-passing in the per-user `ai_context` list: dispatch
first; only after the response exists append the user turn, then the
assistant turn, then trim.  If the dispatch raised, the `except:`
handler replies with the unavailability notice and the context list is
untouched.  The Markdown template around the reply text is transport
formatting, out of the embedded core. -/
def _ai_command (user_id : Int) (args : List String) (ai_context : List Turn)
    (net : NetOutcome) (ts0 ts1 ts2 : String) : String × List Turn :=
  let user_input := ai_command_input args
  match process_query user_id user_input ai_context "advanced_conversational" ts0 net with
  | Except.error _ =>
    ("⚠️ **AI Service Temporarily Unavailable**\nOur quantum processors are recalibrating. Please try again in a moment.",
     ai_context)
  | Except.ok (response, _) =>
    let ctx1 := ai_context ++ [{ role := "user", content := user_input, timestamp := ts1 }]
    let ctx2 := ctx1 ++ [{ role := "assistant", content := response, timestamp := ts2 }]
    (response, trim_context ctx2)

/-- Iterated `_ai_command` processing: one `(args, response field)` pair
per successful dispatch, threading the per-user context list. -/
def ai_command_fold (user_id : Int) (runs : List (List String × String))
    (ctx0 : List Turn) : List Turn :=
  runs.foldl
    (fun ctx p =>
      (_ai_command user_id p.1 ctx (NetOutcome.success (some p.2)) "t0" "t1" "t2").2)
    ctx0

/-- The turns a run of `ai_command_fold` appends, two per dispatch: the
user turn, then the assistant turn carrying the dispatched response. -/
def appended_turns (runs : List (List String × String)) : List Turn :=
  runs.foldr
    (fun p rest =>
      { role := "user", content := ai_command_input p.1, timestamp := "t1" } ::
      { role := "assistant", content := p.2, timestamp := "t2" } :: rest)
    []

/-- Embedding of `Config.validate_tokens` (src/Config.py lines 17-28)
with the two configured secrets as inputs: compute both validation
flags; if not all hold raise ValueError, else return the flags. -/
def validate_tokens (telegram_token ai_service_key : String) :
    Except String (Bool × Bool) :=
  let telegram_token_valid :=
    decide (telegram_token.length > 30) && strContains telegram_token ":"
  let ai_service_key_valid := ai_service_key.length == 32
  if telegram_token_valid && ai_service_key_valid then
    Except.ok (telegram_token_valid, ai_service_key_valid)
  else
    Except.error "Token validation failed"

/-- The token-validation step of `AdvancedAITelegramBot.__init__`
(src/main.py line 44): startup aborts exactly when `validate_tokens`
raises. -/
def bot_init (telegram_token ai_service_key : String) : Except String Bool :=
  match validate_tokens telegram_token ai_service_key with
  | Except.error e => Except.error e
  | Except.ok _ => Except.ok true

/-- Spec-side last-n-elements: the final `n` entries of a list in their
original relative order. -/
def takeLast {α : Type} (n : ℕ) (l : List α) : List α :=
  (l.reverse.take n).reverse

/-- Spec-side case-insensitive substring match (both sides folded). -/
def ciContains (s w : String) : Bool := strContains (strLower s) (strLower w)

/-- Modelled from the spec (section 4.1) for the refinement claim C4:
the ordered first-match selection rules exactly as the spec words them,
with case-insensitive substring matching of each keyword class against
the query text. -/
def select_service_spec (query mode : String) : String :=
  if ["image", "picture", "photo", "see", "look"].any (fun w => ciContains query w) then
    "multimodal"
  else if ["create", "generate", "write", "make", "design"].any (fun w => ciContains query w) then
    "creative"
  else if ["analyze", "predict", "forecast", "trend"].any (fun w => ciContains query w) then
    "analytical"
  else if mode == "autonomous" then
    "autonomous"
  else
    "conversational"

/-- The selector always lands on one of the five configured service
names. -/
theorem select_service_cases (q m : String) :
    _select_service q m = "multimodal" ∨ _select_service q m = "creative" ∨
    _select_service q m = "analytical" ∨ _select_service q m = "autonomous" ∨
    _select_service q m = "conversational" := by
  simp only [_select_service]
  split_ifs <;> simp

/-- The `ai_services` lookup in `process_query` never raises KeyError:
every selector output is a key of the table. -/
theorem lookup_select (q m : String) :
    ∃ cfg, ai_services.lookup (_select_service q m) = some cfg := by
  simp only [_select_service]
  split_ifs <;> exact ⟨_, rfl⟩

/-- Full run of `process_query` as a function of the network outcome:
200 with payload field, 200 without, non-200, parse failure, transport
failure. -/
theorem process_query_run (uid : Int) (q : String) (ctx : List Turn)
    (mode ts : String) (net : NetOutcome) :
    process_query uid q ctx mode ts net =
      Except.ok
        ((match net with
          | NetOutcome.success field => field.getD "AI processing completed."
          | NetOutcome.badStatus _ => _fallback_process q uid
          | _ => _local_ai_response q), ctx) := by
  obtain ⟨cfg, hc⟩ := lookup_select q mode
  simp only [process_query]
  rw [hc]
  cases net <;> rfl

/-- The local responder only ever returns one of its four fixed texts. -/
theorem local_ai_response_cases (q : String) :
    _local_ai_response q ∈
      ["Greetings! I\x27m your advanced AI assistant, operating in local mode.",
       "I can help with analysis, creation, prediction, and more. Try being specific!",
       "I\x27m experiencing connectivity issues but can still assist with basic queries.",
       "I\x27ve processed your query locally. For advanced features, please ensure API connectivity."] := by
  simp only [_local_ai_response]
  cases h : local_responses.find? (fun kv => strContains (strLower q) kv.1) with
  | none => simp
  | some kv =>
    have hmem := List.mem_of_find?_eq_some h
    simp only [local_responses, List.mem_cons, List.not_mem_nil, or_false] at hmem
    rcases hmem with h1 | h1 | h1 <;> subst h1 <;> simp

/-- The local responder never returns the empty string. -/
theorem local_ai_response_ne_empty (q : String) : _local_ai_response q ≠ "" := by
  have h := local_ai_response_cases q
  simp only [List.mem_cons, List.not_mem_nil, or_false] at h
  rcases h with h | h | h | h <;> rw [h] <;> decide

/-- C1 counterexample: on an HTTP-200 payload whose `response` field is
present but empty, `process_query` returns the empty field verbatim, so
the dispatcher's result is the empty string at this concrete input. -/
theorem claim_C1_counterexample :
    process_query 1 "any question" [] "conversational" "t"
      (NetOutcome.success (some "")) = Except.ok ("", []) := by
  rfl

/-- C1 (amended): for every user id, query, context, mode and network
outcome, the dispatcher's result is non-empty unless the primary call
returned an HTTP-200 payload whose `response` field is present and
empty (that empty field is returned verbatim); in particular, on an
HTTP-200 payload lacking a `response` field the result is the
placeholder "AI processing completed.". -/
theorem claim_C1 (uid : Int) (q : String) (ctx : List Turn) (mode ts : String)
    (net : NetOutcome) (r : String) (ctx2 : List Turn)
    (hok : process_query uid q ctx mode ts net = Except.ok (r, ctx2)) :
    (net ≠ NetOutcome.success (some "") → r ≠ "") ∧
    (net = NetOutcome.success none → r = "AI processing completed.") := by
  rw [process_query_run] at hok
  constructor
  · intro hne
    cases net with
    | success field =>
      cases field with
      | none =>
        injection hok with h
        injection h with h1 h2
        rw [← h1]
        show "AI processing completed." ≠ ""
        decide
      | some s =>
        injection hok with h
        injection h with h1 h2
        have hs : s ≠ "" := by
          intro h0
          exact hne (by rw [h0])
        rw [← h1]
        simpa using hs
    | parseError =>
      injection hok with h
      injection h with h1 h2
      rw [← h1]
      exact local_ai_response_ne_empty q
    | badStatus st =>
      injection hok with h
      injection h with h1 h2
      rw [← h1]
      show _fallback_process q uid ≠ ""
      unfold _fallback_process
      decide
    | transportError =>
      injection hok with h
      injection h with h1 h2
      rw [← h1]
      exact local_ai_response_ne_empty q
  · intro hnet
    subst hnet
    injection hok with h
    injection h with h1 h2
    rw [← h1]
    rfl

/-- C1 witness: the amended theorem applied at a transport failure for
the query "hi": the hypotheses hold there and the result is non-empty. -/
theorem claim_C1_witness : _local_ai_response "hi" ≠ "" :=
  (claim_C1 1 "hi" [] "advanced_conversational" "t" NetOutcome.transportError
      (_local_ai_response "hi") [] (by rfl)).1 (by simp)

/-- C2: the dispatcher is total: for every input and every network
outcome it returns `Except.ok` (never an uncaught exception, the
KeyError site included); a transport/timeout/parse failure is converted
into the local fallback and a non-success status into the secondary
fallback, so the call still returns a text result. -/
theorem claim_C2 (uid : Int) (q : String) (ctx : List Turn) (mode ts : String)
    (net : NetOutcome) :
    (∃ s, process_query uid q ctx mode ts net = Except.ok (s, ctx)) ∧
    (net = NetOutcome.transportError ∨ net = NetOutcome.parseError →
      process_query uid q ctx mode ts net = Except.ok (_local_ai_response q, ctx)) ∧
    (∀ st, net = NetOutcome.badStatus st →
      process_query uid q ctx mode ts net = Except.ok (_fallback_process q uid, ctx)) := by
  refine ⟨⟨_, process_query_run uid q ctx mode ts net⟩, ?_, ?_⟩
  · rintro (h | h) <;> subst h <;> exact process_query_run uid q ctx mode ts _
  · rintro st h
    subst h
    exact process_query_run uid q ctx mode ts _

/-- C2 witness: the theorem applied at a concrete transport failure:
the failure is converted into the local responder's text. -/
theorem claim_C2_witness :
    process_query 3 "ping" [] "conversational" "t" NetOutcome.transportError =
      Except.ok (_local_ai_response "ping", []) :=
  (claim_C2 3 "ping" [] "conversational" "t" NetOutcome.transportError).2.1
    (Or.inl rfl)

/-- C3 counterexample: on a primary transport failure for query
"hello", `process_query` returns the local responder's greeting even
though the secondary stage was never attempted (the attempted-stage
trace has no secondary entry), refuting the claim that the local
responder is reached only when the secondary stage has failed as well. -/
theorem claim_C3_counterexample :
    process_query 1 "hello" [] "conversational" "t" NetOutcome.transportError =
      Except.ok ("Greetings! I\x27m your advanced AI assistant, operating in local mode.", []) ∧
    dispatch_source NetOutcome.transportError = DispatchSource.localResponder ∧
    DispatchSource.secondary ∉ dispatch_trace NetOutcome.transportError := by
  refine ⟨by rfl, by rfl, by decide⟩

/-- C3 (amended): the fallback route depends on how the primary call
failed: a non-success status routes to the secondary remote stage,
which is total and never fails, so the local responder is never reached
through it; a transport/timeout/parse exception routes directly to the
local responder, skipping the secondary stage; in particular, when the
primary fails by exception for the query "hello", the local responder's
fixed greeting string is returned with source = local. -/
theorem claim_C3 (uid : Int) (q : String) (ctx : List Turn) (mode ts : String) :
    (∀ st, process_query uid q ctx mode ts (NetOutcome.badStatus st) =
        Except.ok (_fallback_process q uid, ctx) ∧
      dispatch_trace (NetOutcome.badStatus st) =
        [DispatchSource.primary, DispatchSource.secondary]) ∧
    (∀ net, net = NetOutcome.transportError ∨ net = NetOutcome.parseError →
      process_query uid q ctx mode ts net = Except.ok (_local_ai_response q, ctx) ∧
      dispatch_trace net = [DispatchSource.primary, DispatchSource.localResponder]) ∧
    (process_query uid "hello" ctx mode ts NetOutcome.transportError =
      Except.ok ("Greetings! I\x27m your advanced AI assistant, operating in local mode.", ctx) ∧
     dispatch_source NetOutcome.transportError = DispatchSource.localResponder) := by
  refine ⟨fun st => ⟨process_query_run uid q ctx mode ts _, rfl⟩, ?_, ?_, rfl⟩
  · rintro net (h | h) <;> subst h <;> exact ⟨process_query_run uid q ctx mode ts _, rfl⟩
  · have h := process_query_run uid "hello" ctx mode ts NetOutcome.transportError
    rw [h]
    rfl

/-- C3 witness: the amended theorem applied at a concrete non-success
status: the secondary stage produces the result there. -/
theorem claim_C3_witness :
    process_query 2 "hey" [] "conversational" "t" (NetOutcome.badStatus 500) =
      Except.ok (_fallback_process "hey" 2, []) ∧
    dispatch_trace (NetOutcome.badStatus 500) =
      [DispatchSource.primary, DispatchSource.secondary] :=
  (claim_C3 2 "hey" [] "conversational" "t").1 500

/-- C10: the secondary fallback stage is a constant total function:
for every query and user id it returns the same fixed non-empty string;
and once a dispatch reaches the secondary stage (non-success status),
its value is the dispatch result and the local stage is never taken. -/
theorem claim_C10 (q : String) (uid : Int) (ctx : List Turn) (mode ts : String)
    (st : ℕ) :
    _fallback_process q uid =
      "I\x27ve processed your request using backup neural networks. Here\x27s what I determined..." ∧
    _fallback_process q uid ≠ "" ∧
    process_query uid q ctx mode ts (NetOutcome.badStatus st) =
      Except.ok (_fallback_process q uid, ctx) ∧
    DispatchSource.localResponder ∉ dispatch_trace (NetOutcome.badStatus st) := by
  refine ⟨rfl, by unfold _fallback_process; decide, process_query_run uid q ctx mode ts _, by simp [dispatch_trace]⟩

/-- Each routing keyword is already lowercase, so folding it is the
identity. -/
theorem keywords_lower :
    strLower "image" = "image" ∧ strLower "picture" = "picture" ∧
    strLower "photo" = "photo" ∧ strLower "see" = "see" ∧
    strLower "look" = "look" ∧ strLower "create" = "create" ∧
    strLower "generate" = "generate" ∧ strLower "write" = "write" ∧
    strLower "make" = "make" ∧ strLower "design" = "design" ∧
    strLower "analyze" = "analyze" ∧ strLower "predict" = "predict" ∧
    strLower "forecast" = "forecast" ∧ strLower "trend" = "trend" := by
  decide

/-- C4: for every query string and mode, the backend selector computed
by the code agrees with the spec's ordered first-match rules with
case-insensitive substring matching: visual keywords give "multimodal"
regardless of mode, then creative keywords, then analytical keywords,
then the "autonomous" mode check, else "conversational". -/
theorem claim_C4 (query mode : String) :
    _select_service query mode = select_service_spec query mode := by
  obtain ⟨e1, e2, e3, e4, e5, e6, e7, e8, e9, e10, e11, e12, e13, e14⟩ := keywords_lower
  simp only [_select_service, select_service_spec, ciContains,
    List.any_cons, List.any_nil, e1, e2, e3, e4, e5, e6, e7, e8, e9, e10,
    e11, e12, e13, e14]

/-- Spec-side last-n equals the drop form the code uses. -/
theorem takeLast_eq_drop {α : Type} (n : ℕ) (l : List α) :
    takeLast n l = l.drop (l.length - n) := by
  unfold takeLast
  rw [List.reverse_take]
  simp

/-- Among the five service names, "creative" is a substring only of
"creative" itself, so the code's substring test agrees with profile
equality on every selector output. -/
theorem creative_substr (q m : String) :
    strContains (_select_service q m) "creative" =
      (_select_service q m == "creative") := by
  rcases select_service_cases q m with h | h | h | h | h <;> rw [h] <;> decide

/-- C6: every dispatch request carries the last 5 turns of the context
(all of them when fewer than 5 exist, the empty list when the context
is empty), temperature 0.7, max_tokens 1000, and creativity weight 0.8
exactly when the selected backend is the "creative" profile, 0.5
otherwise. -/
theorem claim_C6 (uid : Int) (q : String) (ctx : List Turn) (mode ts mdl : String) :
    (build_payload uid q ctx mode ts mdl (_select_service q mode)).context =
      takeLast 5 ctx ∧
    (ctx.length ≤ 5 →
      (build_payload uid q ctx mode ts mdl (_select_service q mode)).context = ctx) ∧
    (ctx = [] →
      (build_payload uid q ctx mode ts mdl (_select_service q mode)).context = []) ∧
    (build_payload uid q ctx mode ts mdl (_select_service q mode)).parameters.temperature = 0.7 ∧
    (build_payload uid q ctx mode ts mdl (_select_service q mode)).parameters.max_tokens = 1000 ∧
    (build_payload uid q ctx mode ts mdl (_select_service q mode)).parameters.creativity =
      (if _select_service q mode = "creative" then 0.8 else 0.5) := by
  have hctx : (build_payload uid q ctx mode ts mdl (_select_service q mode)).context =
      takeLast 5 ctx := by
    rw [takeLast_eq_drop]
    simp only [build_payload]
    cases ctx <;> simp
  refine ⟨hctx, ?_, ?_, rfl, rfl, ?_⟩
  · intro h5
    rw [hctx, takeLast_eq_drop, Nat.sub_eq_zero_of_le h5, List.drop_zero]
  · intro he
    subst he
    rfl
  · simp only [build_payload, creative_substr]
    by_cases h : _select_service q mode = "creative" <;> simp [h]

/-- C6 witness: the theorem applied to a concrete 7-turn context and a
creative query: the request keeps the last 5 turns and has creativity
0.8; and applied to a short context the slice is the whole context. -/
theorem claim_C6_witness :
    (build_payload 1 "write a poem" (List.replicate 7 ⟨"user", "x", "t"⟩) "m" "t" "mdl"
        (_select_service "write a poem" "m")).context =
      takeLast 5 (List.replicate 7 ⟨"user", "x", "t"⟩) ∧
    (build_payload 1 "hi" [⟨"user", "x", "t"⟩] "m" "t" "mdl"
        (_select_service "hi" "m")).context = [⟨"user", "x", "t"⟩] :=
  ⟨(claim_C6 1 "write a poem" (List.replicate 7 ⟨"user", "x", "t"⟩) "m" "t" "mdl").1,
   (claim_C6 1 "hi" [⟨"user", "x", "t"⟩] "m" "t" "mdl").2.1 (by decide)⟩

/-- Taking n of an append ignores everything of the second list beyond
its own first n elements. -/
theorem take_append_take {α : Type} (n : ℕ) (a b : List α) :
    (a ++ b.take n).take n = (a ++ b).take n := by
  rw [List.take_append_eq_append_take, List.take_append_eq_append_take,
    List.take_take]
  congr 1
  rw [min_eq_left (Nat.sub_le n a.length)]

/-- FIFO-window absorption: trimming to the last n, appending, and
trimming again is the same as trimming the full history once. -/
theorem takeLast_append {α : Type} (n : ℕ) (l m : List α) :
    takeLast n (takeLast n l ++ m) = takeLast n (l ++ m) := by
  unfold takeLast
  rw [List.reverse_append, List.reverse_reverse, List.reverse_append]
  rw [take_append_take]

/-- The last-n window never exceeds n elements. -/
theorem takeLast_length_le {α : Type} (n : ℕ) (l : List α) :
    (takeLast n l).length ≤ n := by
  unfold takeLast
  simp [List.length_take]

/-- A list already within the bound is its own last-n window. -/
theorem takeLast_of_length_le {α : Type} {n : ℕ} {l : List α}
    (h : l.length ≤ n) : takeLast n l = l := by
  rw [takeLast_eq_drop, Nat.sub_eq_zero_of_le h, List.drop_zero]

/-- The code's trim step is exactly the spec's last-20 window. -/
theorem trim_context_eq (ctx : List Turn) : trim_context ctx = takeLast 20 ctx := by
  rw [takeLast_eq_drop]
  unfold trim_context
  split
  · rfl
  · next h =>
    rw [Nat.sub_eq_zero_of_le (Nat.le_of_not_lt h), List.drop_zero]

/-- One successful `_ai_command` run appends exactly the user turn and
the assistant turn and then trims to the last 20. -/
theorem ai_command_success_ctx (uid : Int) (args : List String)
    (ctx : List Turn) (r : String) (ts0 ts1 ts2 : String) :
    (_ai_command uid args ctx (NetOutcome.success (some r)) ts0 ts1 ts2).2 =
      trim_context (ctx ++
        [{ role := "user", content := ai_command_input args, timestamp := ts1 },
         { role := "assistant", content := r, timestamp := ts2 }]) := by
  simp only [_ai_command]
  rw [process_query_run]
  simp

/-- Unfolding one step of the iterated run. -/
theorem ai_command_fold_cons (uid : Int) (p : List String × String)
    (runs : List (List String × String)) (ctx : List Turn) :
    ai_command_fold uid (p :: runs) ctx =
      ai_command_fold uid runs
        ((_ai_command uid p.1 ctx (NetOutcome.success (some p.2)) "t0" "t1" "t2").2) :=
  rfl

/-- The iterated run from any within-bound start is the last-20 window
of the start followed by all appended turns. -/
theorem ai_command_fold_eq (uid : Int) :
    ∀ (runs : List (List String × String)) (ctx0 : List Turn),
      ctx0.length ≤ 20 →
      ai_command_fold uid runs ctx0 = takeLast 20 (ctx0 ++ appended_turns runs) := by
  intro runs
  induction runs with
  | nil =>
    intro ctx0 h
    simp only [ai_command_fold, List.foldl_nil, appended_turns, List.foldr_nil,
      List.append_nil]
    exact (takeLast_of_length_le h).symm
  | cons p runs ih =>
    intro ctx0 h
    rw [ai_command_fold_cons, ai_command_success_ctx, trim_context_eq]
    rw [ih _ (takeLast_length_le 20 _)]
    rw [takeLast_append]
    simp [appended_turns, List.append_assoc]

/-- C5: for every sequence of dispatched turns processed by
`_ai_command` (two turns appended per run), once more than the
configured maximum of 20 turns have been appended the per-user context
window is exactly the last 20 appended turns in their original relative
order, and its length never exceeds 20. -/
theorem claim_C5 (uid : Int) (runs : List (List String × String)) :
    ((appended_turns runs).length > 20 →
      ai_command_fold uid runs [] = takeLast 20 (appended_turns runs)) ∧
    (ai_command_fold uid runs []).length ≤ 20 := by
  have h := ai_command_fold_eq uid runs [] (by simp)
  simp only [List.nil_append] at h
  refine ⟨fun _ => h, ?_⟩
  rw [h]
  exact takeLast_length_le 20 _

/-- C5 witness: eleven runs append 22 turns; the theorem applied there
gives the last-20 window and the length bound. -/
theorem claim_C5_witness :
    (appended_turns (List.replicate 11 (["hi"], "ok"))).length > 20 ∧
    ai_command_fold 1 (List.replicate 11 (["hi"], "ok")) [] =
      takeLast 20 (appended_turns (List.replicate 11 (["hi"], "ok"))) ∧
    (ai_command_fold 1 (List.replicate 11 (["hi"], "ok")) []).length ≤ 20 :=
  ⟨by decide,
   (claim_C5 1 (List.replicate 11 (["hi"], "ok"))).1 (by decide),
   (claim_C5 1 (List.replicate 11 (["hi"], "ok"))).2⟩

set_option maxRecDepth 10000 in
/-- The loop-built progress block equals one bullet line per stage in
declared order. -/
theorem thinking_block_eq :
    thinking_stages.foldl (fun acc stage => acc ++ "• " ++ stage ++ "\n")
        "🤖 **Autonomous Agent Processing**\n\n" ++ "\n**Analysis Complete**\n\n" =
      "🤖 **Autonomous Agent Processing**\n\n" ++
        String.join (thinking_stages.map (fun stage => "• " ++ stage ++ "\n")) ++
        "\n**Analysis Complete**\n\n" := by
  decide

set_option maxRecDepth 10000 in
/-- C7: autonomous dispatch returns the fixed header, one interim
progress line per stage label of the fixed list in declared order, the
separator, and then a final answer chosen by a 3-way switch on mode:
"creative" and "analytical" each give their fixed conclusion, every
other mode the third fixed conclusion; with mode "analytical" the
output contains the fixed analytical conclusion. -/
theorem claim_C7 (uid : Int) (input mode : String) (ctxD : List (String × String)) :
    autonomous_process uid input mode ctxD =
      "🤖 **Autonomous Agent Processing**\n\n" ++
        String.join (thinking_stages.map (fun stage => "• " ++ stage ++ "\n")) ++
        "\n**Analysis Complete**\n\n" ++ autonomous_conclusion mode ∧
    (mode = "creative" → autonomous_conclusion mode =
      "Based on creative analysis, I recommend exploring innovative solutions that combine art and technology.") ∧
    (mode = "analytical" → autonomous_conclusion mode =
      "Statistical analysis suggests multiple optimal paths forward with 87% confidence.") ∧
    (mode ≠ "creative" → mode ≠ "analytical" → autonomous_conclusion mode =
      "Autonomous processing complete. Recommended action: Proceed with adaptive learning protocol.") ∧
    strContains (autonomous_process uid input "analytical" ctxD)
      "Statistical analysis suggests multiple optimal paths forward with 87% confidence." = true := by
  refine ⟨?_, ?_, ?_, ?_,
    (by decide :
      strContains (autonomous_process 0 "" "analytical" [])
        "Statistical analysis suggests multiple optimal paths forward with 87% confidence." = true)⟩
  · show (thinking_stages.foldl (fun acc stage => acc ++ "• " ++ stage ++ "\n")
        "🤖 **Autonomous Agent Processing**\n\n" ++ "\n**Analysis Complete**\n\n") ++
        autonomous_conclusion mode = _
    rw [thinking_block_eq]
  · intro h
    subst h
    rfl
  · intro h
    subst h
    rfl
  · intro h1 h2
    unfold autonomous_conclusion
    rw [if_neg (by simpa using h1), if_neg (by simpa using h2)]

/-- C7 witness: the theorem applied at mode "analytical": that mode's
conclusion is the fixed analytical text. -/
theorem claim_C7_witness :
    autonomous_conclusion "analytical" =
      "Statistical analysis suggests multiple optimal paths forward with 87% confidence." :=
  (claim_C7 0 "x" "analytical" []).2.2.1 rfl

/-- C8: the dispatcher itself never mutates the context window: every
call returns with the context component unchanged; and the caller
appends the user turn and the assistant turn (carrying the finalized
result) only after the dispatch has returned that result, so a dispatch
abandoned before a result exists leaves the window unchanged. -/
theorem claim_C8 (uid : Int) (q : String) (ctx : List Turn) (mode ts : String)
    (net : NetOutcome) (args : List String) (ts0 ts1 ts2 : String) :
    (∀ r ctx2, process_query uid q ctx mode ts net = Except.ok (r, ctx2) →
      ctx2 = ctx) ∧
    (∀ r, process_query uid (ai_command_input args) ctx "advanced_conversational" ts0 net =
        Except.ok (r, ctx) →
      _ai_command uid args ctx net ts0 ts1 ts2 =
        (r, trim_context (ctx ++
          [{ role := "user", content := ai_command_input args, timestamp := ts1 },
           { role := "assistant", content := r, timestamp := ts2 }]))) := by
  constructor
  · intro r ctx2 hok
    rw [process_query_run] at hok
    injection hok with h
    exact (congrArg Prod.snd h).symm
  · intro r hok
    simp only [_ai_command]
    rw [hok]
    simp

/-- C8 witness: the theorem applied at a successful concrete dispatch:
the two turns appended carry the finalized result. -/
theorem claim_C8_witness :
    _ai_command 1 ["hi"] [] (NetOutcome.success (some "ans")) "t0" "t1" "t2" =
      ("ans", trim_context ([] ++
        [{ role := "user", content := ai_command_input ["hi"], timestamp := "t1" },
         { role := "assistant", content := "ans", timestamp := "t2" }])) :=
  (claim_C8 1 "x" [] "m" "t" (NetOutcome.success (some "ans")) ["hi"]
      "t0" "t1" "t2").2 "ans" (by rfl)

/-- C9: startup token validation raises exactly when the Telegram token
check (length over 30 and containing a colon) or the AI service key
check (length exactly 32) fails; when both pass it returns both
validation flags true; and startup aborts exactly when this validation
raises. -/
theorem claim_C9 (t k : String) :
    (validate_tokens t k = Except.ok (true, true) ↔
      (t.length > 30 ∧ strContains t ":" = true ∧ k.length = 32)) ∧
    ((∃ msg, validate_tokens t k = Except.error msg) ↔
      ¬ (t.length > 30 ∧ strContains t ":" = true ∧ k.length = 32)) ∧
    ((∃ msg, bot_init t k = Except.error msg) ↔
      (∃ msg, validate_tokens t k = Except.error msg)) := by
  by_cases h1 : t.length > 30 <;> by_cases h2 : strContains t ":" = true <;>
    by_cases h3 : k.length = 32 <;>
    simp [validate_tokens, bot_init, h1, h2, h3]

/-- C9 witness: the theorem applied to the repository's default
configured secrets: both checks pass and validation returns both flags
true. -/
theorem claim_C9_witness :
    validate_tokens "8480838296:AAEoVE7D-7vIUbSm5VlvCb_92nuiqrGEe8o"
        "287e27f48bca1e6ad2b1adf416e2f6a1" = Except.ok (true, true) :=
  (claim_C9 "8480838296:AAEoVE7D-7vIUbSm5VlvCb_92nuiqrGEe8o"
      "287e27f48bca1e6ad2b1adf416e2f6a1").1.mpr (by decide)
